import Mathlib

/-!
Verification development for the sales-analyst repository
(src/queryfinal.py and src/webapp.py).

Both files implement the same pipeline:
  generate_pandas_query(question) -> a pandas expression string
    (OpenAI chat call; on exception or empty text it returns "df.head()";
     queryfinal.py additionally replaces any response containing the
     substring "Error" by "df.head()"),
  execute_pandas_query(code) -> runs
     exec(f"result = \x7bcode\x7d", global_vars, local_vars)
     with local_vars = \x7b"df": self.df\x7d and, in queryfinal.py,
     global_vars = \x7b"pd": pd\x7d (webapp.py passes \x7b\x7d), returning
     local_vars["result"] on success and the string
     f"Error executing query: ..." when an Exception is caught,
  plus a fixed "quick insights" battery of five (label, expression) pairs.

The embedding models:
  * the table as the one mutable object handed to exec (a single heap
    cell of type DataFrame; all other values are immutable snapshots);
  * CPython exec semantics: since the supplied globals dict has no
    "__builtins__" key, CPython inserts the builtins module, so names
    resolve locals -> globals -> builtins;
  * the Python expression fragment the claims exercise: literals, name
    lookup, attribute access (producing bound methods), subscripts,
    zero- and one-argument calls, with the pandas operations used by the
    repository (column selection, sum, mean, len, groupby/sum/idxmax,
    head, pop) and the builtin capabilities open / __import__ / eval /
    exec reachable through the injected builtins;
  * exceptions, split into Exception-derived ones (caught by the
    "except Exception" handler of the source) and SystemExit, which derives
    only from BaseException and escapes that handler.
-/

/-- Exact rational numbers as numerator/denominator pairs.  Every value
the development builds is normalized (coprime, positive denominator), so
structural equality coincides with rational equality on reachable
values.  (A hand-rolled type rather than Mathlib Rat so that all
arithmetic reduces inside the kernel.) -/
structure PyRat where
  num : Int
  den : Nat
  deriving DecidableEq

/-- Normalize a fraction with positive denominator. -/
def normRat (n : Int) (d : Nat) : PyRat :=
  if d = 0 then ⟨0, 1⟩
  else
    let g := n.natAbs.gcd d
    ⟨n / (g : Int), d / g⟩

/-- The integer q as a PyRat. -/
def intRat (n : Int) : PyRat := ⟨n, 1⟩

/-- Rational addition. -/
def addRat (a b : PyRat) : PyRat :=
  normRat (a.num * (b.den : Int) + b.num * (a.den : Int)) (a.den * b.den)

/-- Divide a rational by a positive natural (used for the mean). -/
def divRatNat (a : PyRat) (k : Nat) : PyRat := normRat a.num (a.den * k)

/-- Strict comparison of rationals (denominators are positive). -/
def ltRat (a b : PyRat) : Bool := a.num * (b.den : Int) < b.num * (a.den : Int)

/-- Scalar cell values of the table: numbers (CSV numerics, modelled as
exact rationals), strings, and the float NaN that pandas returns for the
mean of an empty column. -/
inductive PyScalar where
  | num (q : PyRat)
  | str (s : String)
  | nan
  deriving DecidableEq

/-- The in-memory pandas DataFrame: ordered column names and rows
(assumed rectangular, as produced by pd.read_csv). -/
structure DataFrame where
  colNames : List String
  rows : List (List PyScalar)
  deriving DecidableEq

/-- Python exceptions relevant to the pipeline.  `parseError` models the
SyntaxError raised when exec fails to compile the candidate.  All of
these derive from Exception except `systemExit` (SystemExit derives
only from BaseException, so "except Exception" does not catch it). -/
inductive PyExc where
  | nameError (n : String)
  | keyError (k : String)
  | typeError (msg : String)
  | valueError (msg : String)
  | parseError
  | systemExit
  deriving DecidableEq

/-- Whether the exception class derives from Exception, i.e. whether the
"except Exception as e" handler of the source catches it. -/
def derivesException : PyExc → Bool
  | .systemExit => false
  | _ => true

/-- Runtime values of the evaluated fragment.  `dfRef` is a reference to
the one mutable DataFrame object that local_vars["df"] aliases (its
contents live in the evaluation state); `frame` is any other, freshly
built DataFrame value (e.g. the result of df.head()). -/
inductive PyValue where
  | scalar (s : PyScalar)
  | dfRef
  | frame (d : DataFrame)
  | series (vals : List PyScalar)
  | groupedFrame (pairs : List (PyScalar × List PyScalar)) (cols : List String)
  | groupedSeries (pairs : List (PyScalar × PyScalar))
  | keyedSeries (pairs : List (PyScalar × PyScalar))
  | boundMethod (recv : PyValue) (meth : String)
  | builtinFn (n : String)
  | module (n : String)
  | hostObj (desc : String)
  deriving DecidableEq

/-- The subset of CPython builtin names the development needs.  CPython
injects the full builtins module into the globals dict passed to exec
whenever that dict has no "__builtins__" key — which is the case in both
execute_pandas_query implementations — so every one of these names is
resolvable from inside the evaluated candidate. -/
def pythonBuiltinNames : List String :=
  ["len", "open", "__import__", "eval", "exec"]

/-- Name resolution inside the exec-ed code: locals (which initially
bind only "df"), then globals ("pd" in queryfinal.py, nothing in
webapp.py), then the injected builtins. -/
def lookupName (hasPd : Bool) (locals : List (String × PyValue)) (x : String) :
    Option PyValue :=
  match List.lookup x locals with
  | some v => some v
  | none =>
    if hasPd && x == "pd" then some (PyValue.module "pandas")
    else if pythonBuiltinNames.contains x then some (PyValue.builtinFn x)
    else none

/-- The initial locals dict of execute_pandas_query:
local_vars = \x7b"df": self.df\x7d. -/
def initLocals : List (String × PyValue) := [("df", PyValue.dfRef)]

/-- Pandas Series.sum over the cell values of a column: numeric columns
sum, all-string (object dtype) columns concatenate, mixed columns raise
TypeError.  The empty sum is 0, as in pandas. -/
def sumSeries (vals : List PyScalar) : Except PyExc PyScalar :=
  if vals.all (fun v => match v with | .num _ => true | _ => false) then
    Except.ok (PyScalar.num (vals.foldl
      (fun a v => match v with | .num q => addRat a q | _ => a) (intRat 0)))
  else if vals.all (fun v => match v with | .str _ => true | _ => false) then
    Except.ok (PyScalar.str (vals.foldl
      (fun a v => match v with | .str s => a ++ s | _ => a) ""))
  else
    Except.error (PyExc.typeError "unsupported operand types for sum")

/-- Pandas Series.mean: the arithmetic mean of a numeric column, NaN for
an empty column, TypeError when non-numeric entries are present. -/
def meanSeries (vals : List PyScalar) : Except PyExc PyScalar :=
  if vals.all (fun v => match v with | .num _ => true | _ => false) then
    if vals.isEmpty then Except.ok PyScalar.nan
    else Except.ok (PyScalar.num (divRatNat (vals.foldl
      (fun a v => match v with | .num q => addRat a q | _ => a) (intRat 0)) vals.length))
  else
    Except.error (PyExc.typeError "could not compute mean of non-numeric column")

/-- Per-group sums for groupby(key)[val].sum(): for each distinct key,
the sum of the values of that group.  (Pandas sorts group keys; this model
keeps first-occurrence order, which agrees with pandas on everything the
claims evaluate — only idxmax of the result is consumed, and every input
used has a unique maximal group.) -/
def groupSums (keys : List PyScalar) (pairs : List (PyScalar × PyScalar)) :
    Except PyExc (List (PyScalar × PyScalar)) :=
  match keys with
  | [] => Except.ok []
  | k :: ks =>
    match sumSeries ((pairs.filter (fun p => p.1 == k)).map Prod.snd) with
    | Except.error e => Except.error e
    | Except.ok s =>
      match groupSums ks pairs with
      | Except.error e => Except.error e
      | Except.ok rest => Except.ok ((k, s) :: rest)

/-- The numeric views of a keyed series, or `none` when some value is
not numeric. -/
def allNumPairs : List (PyScalar × PyScalar) → Option (List (PyScalar × PyRat))
  | [] => some []
  | (k, PyScalar.num q) :: rest => (allNumPairs rest).map (fun l => (k, q) :: l)
  | _ => none

/-- The key of the first maximal value (strict improvement keeps the
earlier entry, as pandas idxmax does). -/
def argmaxKey (p0 : PyScalar × PyRat) (ps : List (PyScalar × PyRat)) : PyScalar :=
  (ps.foldl (fun b p => if ltRat b.2 p.2 then p else b) p0).1

/-- Series.idxmax on a key-indexed numeric series: the key of the first
maximal value; ValueError on an empty series, TypeError when values are
not all numeric. -/
def idxmaxKeyed (pairs : List (PyScalar × PyScalar)) : Except PyExc PyScalar :=
  match allNumPairs pairs with
  | none => Except.error (PyExc.typeError "idxmax on non-numeric values")
  | some [] => Except.error (PyExc.valueError "attempt to get argmax of an empty sequence")
  | some (p :: ps) => Except.ok (argmaxKey p ps)

/-- The cell of row `r` in column position `i` (rows are rectangular, so
the default is never consulted on well-formed frames). -/
def cellAt (i : Nat) (r : List PyScalar) : PyScalar := r.getD i (PyScalar.str "")

/-- Column extraction by name from column names and rows. -/
def columnOf (cols : List String) (rows : List (List PyScalar)) (c : String) :
    Except PyExc (List PyScalar) :=
  match cols.findIdx? (fun n => n == c) with
  | some i => Except.ok (rows.map (cellAt i))
  | none => Except.error (PyExc.keyError c)

/-- One call step: apply a callable value to zero or one argument.
`st` is the contents of the one mutable DataFrame object; the only
clause that changes it is DataFrame.pop on that object (an in-place
column removal, as in pandas).  Calls the model does not cover raise a
TypeError, which — like the real counterparts (AttributeError,
TypeError) — derives from Exception. -/
def applyCall (fv : PyValue) (argv : Option PyValue) (st : DataFrame) :
    Except PyExc PyValue × DataFrame :=
  match fv, argv with
  | PyValue.builtinFn "len", some PyValue.dfRef =>
    (Except.ok (PyValue.scalar (PyScalar.num (intRat st.rows.length))), st)
  | PyValue.builtinFn "len", some (PyValue.frame d) =>
    (Except.ok (PyValue.scalar (PyScalar.num (intRat d.rows.length))), st)
  | PyValue.builtinFn "len", some (PyValue.series vs) =>
    (Except.ok (PyValue.scalar (PyScalar.num (intRat vs.length))), st)
  | PyValue.builtinFn "open", some _ =>
    (Except.ok (PyValue.hostObj "open file handle"), st)
  | PyValue.builtinFn "__import__", some (PyValue.scalar (PyScalar.str m)) =>
    (Except.ok (PyValue.module m), st)
  | PyValue.builtinFn "eval", some _ =>
    (Except.ok (PyValue.hostObj "dynamic code evaluation"), st)
  | PyValue.builtinFn "exec", some _ =>
    (Except.ok (PyValue.hostObj "dynamic code evaluation"), st)
  | PyValue.boundMethod (PyValue.module "sys") "exit", _ =>
    (Except.error PyExc.systemExit, st)
  | PyValue.boundMethod (PyValue.module "pandas") "read_csv", some _ =>
    (Except.ok (PyValue.hostObj "csv file read"), st)
  | PyValue.boundMethod PyValue.dfRef "head", none =>
    (Except.ok (PyValue.frame ⟨st.colNames, st.rows.take 5⟩), st)
  | PyValue.boundMethod (PyValue.frame d) "head", none =>
    (Except.ok (PyValue.frame ⟨d.colNames, d.rows.take 5⟩), st)
  | PyValue.boundMethod PyValue.dfRef "pop", some (PyValue.scalar (PyScalar.str c)) =>
    (match st.colNames.findIdx? (fun n => n == c) with
     | some i =>
       (Except.ok (PyValue.series (st.rows.map (cellAt i))),
        ⟨st.colNames.eraseIdx i, st.rows.map (fun r => r.eraseIdx i)⟩)
     | none => (Except.error (PyExc.keyError c), st))
  | PyValue.boundMethod (PyValue.frame d) "pop", some (PyValue.scalar (PyScalar.str c)) =>
    (match columnOf d.colNames d.rows c with
     | Except.ok vs => (Except.ok (PyValue.series vs), st)
     | Except.error e => (Except.error e, st))
  | PyValue.boundMethod PyValue.dfRef "groupby", some (PyValue.scalar (PyScalar.str c)) =>
    (match st.colNames.findIdx? (fun n => n == c) with
     | some i =>
       (Except.ok (PyValue.groupedFrame (st.rows.map (fun r => (cellAt i r, r)))
         st.colNames), st)
     | none => (Except.error (PyExc.keyError c), st))
  | PyValue.boundMethod (PyValue.frame d) "groupby", some (PyValue.scalar (PyScalar.str c)) =>
    (match d.colNames.findIdx? (fun n => n == c) with
     | some i =>
       (Except.ok (PyValue.groupedFrame (d.rows.map (fun r => (cellAt i r, r)))
         d.colNames), st)
     | none => (Except.error (PyExc.keyError c), st))
  | PyValue.boundMethod (PyValue.series vs) "sum", none =>
    (match sumSeries vs with
     | Except.ok s => Except.ok (PyValue.scalar s)
     | Except.error e => Except.error e, st)
  | PyValue.boundMethod (PyValue.series vs) "mean", none =>
    (match meanSeries vs with
     | Except.ok s => Except.ok (PyValue.scalar s)
     | Except.error e => Except.error e, st)
  | PyValue.boundMethod (PyValue.groupedSeries pairs) "sum", none =>
    (match groupSums ((pairs.map Prod.fst).eraseDups) pairs with
     | Except.ok agg => Except.ok (PyValue.keyedSeries agg)
     | Except.error e => Except.error e, st)
  | PyValue.boundMethod (PyValue.keyedSeries pairs) "idxmax", none =>
    (match idxmaxKeyed pairs with
     | Except.ok k => Except.ok (PyValue.scalar k)
     | Except.error e => Except.error e, st)
  | _, _ => (Except.error (PyExc.typeError "object is not callable here"), st)

/-- Subscript access obj[ix]. -/
def applySubscript (ov : PyValue) (iv : PyValue) (st : DataFrame) :
    Except PyExc PyValue × DataFrame :=
  match ov, iv with
  | PyValue.dfRef, PyValue.scalar (PyScalar.str c) =>
    (match columnOf st.colNames st.rows c with
     | Except.ok vs => Except.ok (PyValue.series vs)
     | Except.error e => Except.error e, st)
  | PyValue.frame d, PyValue.scalar (PyScalar.str c) =>
    (match columnOf d.colNames d.rows c with
     | Except.ok vs => Except.ok (PyValue.series vs)
     | Except.error e => Except.error e, st)
  | PyValue.groupedFrame pairs cols, PyValue.scalar (PyScalar.str c) =>
    (match cols.findIdx? (fun n => n == c) with
     | some i =>
       Except.ok (PyValue.groupedSeries (pairs.map (fun p => (p.1, cellAt i p.2))))
     | none => Except.error (PyExc.keyError c), st)
  | _, _ => (Except.error (PyExc.typeError "object is not subscriptable here"), st)

/-- The Python expression fragment the candidates use: literals, names,
attribute access, subscripts, and calls with zero or one argument (every
call in the repository and in the counterexamples takes at most one). -/
inductive Expr where
  | intLit (n : Int)
  | strLit (s : String)
  | name (x : String)
  | attr (e : Expr) (a : String)
  | subscript (e : Expr) (ix : Expr)
  | call0 (f : Expr)
  | call1 (f : Expr) (arg : Expr)
  deriving DecidableEq

/-- Expression evaluation.  Attribute access yields a bound-method value
(dispatched at call time); evaluation order is receiver before index or
argument, as in CPython. -/
def evalExpr (hasPd : Bool) (locals : List (String × PyValue)) :
    Expr → DataFrame → Except PyExc PyValue × DataFrame
  | Expr.intLit n, st => (Except.ok (PyValue.scalar (PyScalar.num (intRat n))), st)
  | Expr.strLit s, st => (Except.ok (PyValue.scalar (PyScalar.str s)), st)
  | Expr.name x, st =>
    (match lookupName hasPd locals x with
     | some v => Except.ok v
     | none => Except.error (PyExc.nameError x), st)
  | Expr.attr e a, st =>
    (match evalExpr hasPd locals e st with
     | (Except.ok v, st1) => (Except.ok (PyValue.boundMethod v a), st1)
     | (Except.error ex, st1) => (Except.error ex, st1))
  | Expr.subscript e ix, st =>
    (match evalExpr hasPd locals e st with
     | (Except.ok ov, st1) =>
       (match evalExpr hasPd locals ix st1 with
        | (Except.ok iv, st2) => applySubscript ov iv st2
        | (Except.error ex, st2) => (Except.error ex, st2))
     | (Except.error ex, st1) => (Except.error ex, st1))
  | Expr.call0 f, st =>
    (match evalExpr hasPd locals f st with
     | (Except.ok fv, st1) => applyCall fv none st1
     | (Except.error ex, st1) => (Except.error ex, st1))
  | Expr.call1 f a, st =>
    (match evalExpr hasPd locals f st with
     | (Except.ok fv, st1) =>
       (match evalExpr hasPd locals a st1 with
        | (Except.ok av, st2) => applyCall fv (some av) st2
        | (Except.error ex, st2) => (Except.error ex, st2))
     | (Except.error ex, st1) => (Except.error ex, st1))

/-- Statements of the exec-ed program beyond the synthesized first
assignment: further assignments and bare expression statements (what
"result = ..." followed by newline- or semicolon-separated code
compiles to in exec mode). -/
inductive Stmt where
  | assign (x : String) (e : Expr)
  | exprStmt (e : Expr)
  deriving DecidableEq

/-- Run a statement list, threading the locals dict and the mutable
DataFrame object. -/
def runStmts (hasPd : Bool) :
    List Stmt → List (String × PyValue) → DataFrame →
    Except PyExc (List (String × PyValue)) × DataFrame
  | [], locals, st => (Except.ok locals, st)
  | Stmt.assign x e :: rest, locals, st =>
    (match evalExpr hasPd locals e st with
     | (Except.ok v, st1) => runStmts hasPd rest ((x, v) :: locals) st1
     | (Except.error ex, st1) => (Except.error ex, st1))
  | Stmt.exprStmt e :: rest, locals, st =>
    (match evalExpr hasPd locals e st with
     | (Except.ok _, st1) => runStmts hasPd rest locals st1
     | (Except.error ex, st1) => (Except.error ex, st1))

/-- A candidate expression string, as exec compiles the synthesized
program f"result = \x7bcode\x7d":
  * `prog e rest`: the candidate starts with an expression (completing
    the assignment to result) and may continue with further statements —
    exec compiles in statement mode, so "0\nresult = 42" is accepted;
  * `malformed`: the candidate does not compile (SyntaxError). -/
inductive Candidate where
  | prog (e : Expr) (rest : List Stmt)
  | malformed
  deriving DecidableEq

/-- Outcome of execute_pandas_query as seen by its caller: the raw value
of local_vars["result"], or the except-branch string
f"Error executing query: ...", or an exception that escapes the
"except Exception" handler and propagates. -/
inductive ExecResult where
  | ok (v : PyValue)
  | errorString (msg : String)
  | uncaught (e : PyExc)
  deriving DecidableEq

/-- Plain rendering of str(e) for the caught-exception message. -/
def excMessage : PyExc → String
  | .nameError n => "name " ++ n ++ " is not defined"
  | .keyError k => k
  | .typeError m => m
  | .valueError m => m
  | .parseError => "invalid syntax"
  | .systemExit => ""

/-- The string returned by the except branch of execute_pandas_query. -/
def execErrorMsg (e : PyExc) : String := "Error executing query: " ++ excMessage e

/-- execute_pandas_query (queryfinal.py lines 109-116, webapp.py lines
77-83): run exec(f"result = \x7bcode\x7d", global_vars, local_vars) with
local_vars = \x7b"df": self.df\x7d and return local_vars["result"]; an
Exception is caught and turned into the error string; an exception that
does not derive from Exception escapes.  `hasPd` is true for
queryfinal.py (global_vars = \x7b"pd": pd\x7d) and false for webapp.py
(global_vars = \x7b\x7d). -/
def execute_pandas_query (hasPd : Bool) (c : Candidate) (df : DataFrame) :
    ExecResult × DataFrame :=
  match c with
  | Candidate.malformed => (ExecResult.errorString (execErrorMsg PyExc.parseError), df)
  | Candidate.prog e rest =>
    match runStmts hasPd (Stmt.assign "result" e :: rest) initLocals df with
    | (Except.ok locals, st) =>
      (match List.lookup "result" locals with
       | some v => (ExecResult.ok v, st)
       | none => (ExecResult.errorString (execErrorMsg (PyExc.keyError "result")), st))
    | (Except.error ex, st) =>
      if derivesException ex then (ExecResult.errorString (execErrorMsg ex), st)
      else (ExecResult.uncaught ex, st)

/-- Outcome of the one external-service round trip inside
generate_pandas_query: the raw response text on success, or any
exception from the OpenAI call (network failure, auth failure, missing
content attribute). -/
inductive TranslationOutcome where
  | success (text : String)
  | failure
  deriving DecidableEq

/-- Python str.strip(): drop leading and trailing whitespace.  (Defined
on the character list so that it evaluates inside the kernel.) -/
def pyStrip (s : String) : String :=
  String.mk (((s.data.dropWhile Char.isWhitespace).reverse.dropWhile
    Char.isWhitespace).reverse)

/-- The translation step failed in the sense of the spec: service
exception, or a response with no usable text. -/
def translationFailed : TranslationOutcome → Bool
  | .failure => true
  | .success s => pyStrip s == ""

/-- The pattern occurs at the head of the list. -/
def leadsWith : List Char → List Char → Bool
  | [], _ => true
  | _ :: _, [] => false
  | a :: as, b :: bs => a == b && leadsWith as bs

/-- The pattern occurs somewhere in the list. -/
def occursIn (pat : List Char) : List Char → Bool
  | [] => pat.isEmpty
  | c :: tl => leadsWith pat (c :: tl) || occursIn pat tl

/-- Substring test for the Python expression `"Error" in s`. -/
def containsErrorSub (s : String) : Bool :=
  occursIn "Error".toList s.toList

/-- generate_pandas_query of queryfinal.py (lines 93-107): strip the
response; if the stripped text is falsy or contains the substring
"Error", return "df.head()"; on any exception show an error dialog and
return "df.head()"; otherwise return the stripped text. -/
def generate_pandas_query_qf : TranslationOutcome → String
  | TranslationOutcome.failure => "df.head()"
  | TranslationOutcome.success raw =>
    let pandas_code := pyStrip raw
    if pandas_code == "" || containsErrorSub pandas_code then "df.head()"
    else pandas_code

/-- generate_pandas_query of webapp.py (lines 64-75): strip the
response; return it if truthy, else "df.head()"; on exception show an
error and return "df.head()". -/
def generate_pandas_query_wa : TranslationOutcome → String
  | TranslationOutcome.failure => "df.head()"
  | TranslationOutcome.success raw =>
    let pandas_code := pyStrip raw
    if pandas_code == "" then "df.head()" else pandas_code

/-- Final state of one user-initiated query. -/
inductive RunOutcome where
  | rejectedEmptyQuestion
  | completed (exprUsed : String)
  deriving DecidableEq

/-- Control-flow trace of one run: whether the translation call and the
sandbox evaluation were reached, and with which expression string the
sandbox was invoked. -/
structure RunTrace where
  translationInvoked : Bool
  sandboxInvoked : Bool
  outcome : RunOutcome
  deriving DecidableEq

/-- run_query of queryfinal.py (lines 118-128): `if not question` shows
a warning and returns (only the exactly-empty string is falsy);
otherwise generate_pandas_query is called and its result string is
handed to execute_pandas_query. -/
def run_query_qf (question : String) (o : TranslationOutcome) : RunTrace :=
  if question == "" then
    { translationInvoked := false, sandboxInvoked := false,
      outcome := RunOutcome.rejectedEmptyQuestion }
  else
    { translationInvoked := true, sandboxInvoked := true,
      outcome := RunOutcome.completed (generate_pandas_query_qf o) }

/-- The query branch of webapp.py main (lines 136-139):
`if run_query and query:` — with the button pressed, only the
exactly-empty query string skips generation and execution. -/
def run_query_wa (question : String) (o : TranslationOutcome) : RunTrace :=
  if question == "" then
    { translationInvoked := false, sandboxInvoked := false,
      outcome := RunOutcome.rejectedEmptyQuestion }
  else
    { translationInvoked := true, sandboxInvoked := true,
      outcome := RunOutcome.completed (generate_pandas_query_wa o) }

/-- Parse of the candidate "df.head()" — the fixed fallback
expression. -/
def dfHeadCandidate : Candidate :=
  Candidate.prog (Expr.call0 (Expr.attr (Expr.name "df") "head")) []

/-- Parse of df["Amount"].sum() — queryfinal battery entry 1. -/
def qfSumExpr : Expr :=
  Expr.call0 (Expr.attr (Expr.subscript (Expr.name "df") (Expr.strLit "Amount")) "sum")

/-- Parse of df["Amount"].mean() — queryfinal battery entry 2. -/
def qfMeanExpr : Expr :=
  Expr.call0 (Expr.attr (Expr.subscript (Expr.name "df") (Expr.strLit "Amount")) "mean")

/-- Parse of len(df) — battery entry 3 in both files. -/
def lenExpr : Expr := Expr.call1 (Expr.name "len") (Expr.name "df")

/-- Parse of df.groupby(k)[v].sum().idxmax(). -/
def groupIdxmaxExpr (k v : String) : Expr :=
  Expr.call0 (Expr.attr
    (Expr.call0 (Expr.attr
      (Expr.subscript
        (Expr.call1 (Expr.attr (Expr.name "df") "groupby") (Expr.strLit k))
        (Expr.strLit v))
      "sum"))
    "idxmax")

/-- The quick-insights battery of queryfinal.py show_quick_insights
(lines 130-147), with each expression string parsed: Total Sales =
df["Amount"].sum(), Average Order Value = df["Amount"].mean(), Number of
Transactions = len(df), Top Product =
df.groupby("Product name")["Amount"].sum().idxmax(), Top Customer =
df.groupby("Account (Opportunity) (Opportunity)")["Amount"].sum().idxmax(). -/
def queryfinalBattery : List (String × Candidate) :=
  [("Total Sales", Candidate.prog qfSumExpr []),
   ("Average Order Value", Candidate.prog qfMeanExpr []),
   ("Number of Transactions", Candidate.prog lenExpr []),
   ("Top Product", Candidate.prog (groupIdxmaxExpr "Product name" "Amount") []),
   ("Top Customer",
    Candidate.prog (groupIdxmaxExpr "Account (Opportunity) (Opportunity)" "Amount") [])]

/-- The quick-insights battery of webapp.py quick_insights (lines
85-102), with each expression string parsed: Total Extended Amount =
df["Extended Amount"].sum(), Average Product Quantity =
df["Quantity"].mean(), Number of Transactions = len(df), Top Product by
Sales = df.groupby("Product name")["Extended Amount"].sum().idxmax(),
Average Order Value = df["Extended Amount"].mean(). -/
def webappBattery : List (String × Candidate) :=
  [("Total Extended Amount",
    Candidate.prog (Expr.call0 (Expr.attr
      (Expr.subscript (Expr.name "df") (Expr.strLit "Extended Amount")) "sum")) []),
   ("Average Product Quantity",
    Candidate.prog (Expr.call0 (Expr.attr
      (Expr.subscript (Expr.name "df") (Expr.strLit "Quantity")) "mean")) []),
   ("Number of Transactions", Candidate.prog lenExpr []),
   ("Top Product by Sales",
    Candidate.prog (groupIdxmaxExpr "Product name" "Extended Amount") []),
   ("Average Order Value",
    Candidate.prog (Expr.call0 (Expr.attr
      (Expr.subscript (Expr.name "df") (Expr.strLit "Extended Amount")) "mean")) [])]

/-- The insights loop of queryfinal.py: for each battery entry, call
execute_pandas_query and record (label, result).  The per-entry
"except Exception" handler never fires for a returned error string; an
exception escaping execute_pandas_query (not Exception-derived) also
escapes this loop, aborting it — modelled as `none`. -/
def runBatteryQF : List (String × Candidate) → DataFrame →
    Option (List (String × ExecResult) × DataFrame)
  | [], df => some ([], df)
  | (n, c) :: rest, df =>
    match execute_pandas_query true c df with
    | (ExecResult.uncaught _, _) => none
    | (r, df1) =>
      match runBatteryQF rest df1 with
      | none => none
      | some (l, d) => some ((n, r) :: l, d)

/-- A value stored by the webapp.py insights loop: the result of
execute_pandas_query, or the string "N/A" recorded by the bare except
handler. -/
inductive InsightValue where
  | res (r : ExecResult)
  | notAvailable
  deriving DecidableEq

/-- The insights loop of webapp.py quick_insights (lines 85-102): for
each battery entry, call execute_pandas_query (with the webapp globals,
hence hasPd = false) and store (label, result) in the insertion-ordered
dict; the per-entry handler is a bare "except:", which catches every
exception — BaseException included — and stores "N/A", so this loop
never aborts. -/
def quick_insights_wa : List (String × Candidate) → DataFrame →
    List (String × InsightValue) × DataFrame
  | [], df => ([], df)
  | (n, c) :: rest, df =>
    match execute_pandas_query false c df with
    | (ExecResult.uncaught _, df1) =>
      ((n, InsightValue.notAvailable) :: (quick_insights_wa rest df1).1,
       (quick_insights_wa rest df1).2)
    | (r, df1) =>
      ((n, InsightValue.res r) :: (quick_insights_wa rest df1).1,
       (quick_insights_wa rest df1).2)

/-- Modelled from the spec: the insights battery the specification
defines at build time (section 4.6), as its labelled set. -/
def specBatteryLabels : List String :=
  ["Total Sales", "Average Order Value", "Transaction Count", "Top Product",
   "Top Customer"]

/-- Modelled from the spec: the allow-listed table-operation vocabulary
the specification permits inside the sandbox (section 4.4). -/
def specAllowedPrimitives : List String :=
  ["select", "filter", "groupby", "sum", "mean", "count", "min", "max",
   "idxmax", "idxmin", "sort", "head", "take"]

/-- A concrete sales table: Amount = [100, 200, 300] with product and
account columns (the concrete scenario of spec section 8). -/
def sampleDf : DataFrame :=
  ⟨["Amount", "Product name", "Account (Opportunity) (Opportunity)"],
   [[PyScalar.num (intRat 100), PyScalar.str "A", PyScalar.str "X"],
    [PyScalar.num (intRat 200), PyScalar.str "B", PyScalar.str "Y"],
    [PyScalar.num (intRat 300), PyScalar.str "A", PyScalar.str "X"]]⟩

/-- Parse of the candidate df.pop("Amount"): an in-place column removal
that is a single Python expression. -/
def popCandidate : Candidate :=
  Candidate.prog (Expr.call1 (Expr.attr (Expr.name "df") "pop") (Expr.strLit "Amount")) []

/-- Parse of the candidate __import__("sys").exit(): a single Python
expression whose evaluation raises SystemExit. -/
def sysExitCandidate : Candidate :=
  Candidate.prog
    (Expr.call0 (Expr.attr
      (Expr.call1 (Expr.name "__import__") (Expr.strLit "sys")) "exit")) []

/-- Parse of the candidate "0\nresult = 42": exec receives
"result = 0\nresult = 42", a two-statement program. -/
def multiStmtCandidate : Candidate :=
  Candidate.prog (Expr.intLit 0) [Stmt.assign "result" (Expr.intLit 42)]

/-- The value embeds no bound method named `bad`. -/
def valueAvoids (bad : String) : PyValue → Bool
  | PyValue.boundMethod r m => !(m == bad) && valueAvoids bad r
  | _ => true

/-- The expression contains no attribute access named `bad`. -/
def exprAvoids (bad : String) : Expr → Bool
  | Expr.intLit _ => true
  | Expr.strLit _ => true
  | Expr.name _ => true
  | Expr.attr e a => !(a == bad) && exprAvoids bad e
  | Expr.subscript e ix => exprAvoids bad e && exprAvoids bad ix
  | Expr.call0 f => exprAvoids bad f
  | Expr.call1 f a => exprAvoids bad f && exprAvoids bad a

/-- Values that can neither mutate the table nor raise SystemExit when
called: no "pop" and no "exit" bound method inside. -/
def tameValue (v : PyValue) : Bool := valueAvoids "pop" v && valueAvoids "exit" v

/-- Expressions with no .pop and no .exit attribute access. -/
def tameExpr (e : Expr) : Bool := exprAvoids "pop" e && exprAvoids "exit" e

def tameCandidate : Candidate → Bool
  | Candidate.prog e [] => tameExpr e
  | _ => false

lemma columnOf_error (cols : List String) (rows : List (List PyScalar)) (c : String)
    (e : PyExc) (h : columnOf cols rows c = Except.error e) : e = PyExc.keyError c := by
  unfold columnOf at h
  split at h <;> simp_all

lemma sumSeries_no_exit (vals : List PyScalar) :
    sumSeries vals ≠ Except.error PyExc.systemExit := by
  unfold sumSeries
  split <;> (try split) <;> simp

lemma meanSeries_no_exit (vals : List PyScalar) :
    meanSeries vals ≠ Except.error PyExc.systemExit := by
  unfold meanSeries
  split <;> (try split) <;> simp

lemma groupSums_no_exit (keys : List PyScalar) (pairs : List (PyScalar × PyScalar)) :
    groupSums keys pairs ≠ Except.error PyExc.systemExit := by
  induction keys with
  | nil => simp [groupSums]
  | cons k ks ih =>
    unfold groupSums
    rcases h : sumSeries ((pairs.filter (fun p => p.1 == k)).map Prod.snd) with e | s
    · have := sumSeries_no_exit ((pairs.filter (fun p => p.1 == k)).map Prod.snd)
      simp_all
    · rcases h2 : groupSums ks pairs with e2 | rest <;> simp_all

lemma idxmaxKeyed_no_exit (pairs : List (PyScalar × PyScalar)) :
    idxmaxKeyed pairs ≠ Except.error PyExc.systemExit := by
  unfold idxmaxKeyed
  split <;> simp

lemma applySubscript_state (ov iv : PyValue) (st : DataFrame) :
    (applySubscript ov iv st).2 = st := by
  unfold applySubscript
  split <;> (try split) <;> rfl

lemma applySubscript_no_exit (ov iv : PyValue) (st : DataFrame) :
    (applySubscript ov iv st).1 ≠ Except.error PyExc.systemExit := by
  unfold applySubscript
  split <;> (try split) <;>
    (try (rename_i heq; have := columnOf_error _ _ _ _ heq)) <;> simp_all

lemma applySubscript_ok_tame (ov iv : PyValue) (st : DataFrame) (v : PyValue)
    (h : (applySubscript ov iv st).1 = Except.ok v) : tameValue v = true := by
  unfold applySubscript at h
  split at h <;> (try split at h) <;>
    (try (cases h)) <;> simp_all [tameValue, valueAvoids]

lemma applyCall_state (fv : PyValue) (argv : Option PyValue) (st : DataFrame)
    (hf : valueAvoids "pop" fv = true) : (applyCall fv argv st).2 = st := by
  unfold applyCall
  split <;> (try split) <;> simp_all [valueAvoids]

lemma applyCall_no_exit (fv : PyValue) (argv : Option PyValue) (st : DataFrame)
    (hf : valueAvoids "exit" fv = true) :
    (applyCall fv argv st).1 ≠ Except.error PyExc.systemExit := by
  unfold applyCall
  split <;> (try split) <;> simp_all [valueAvoids]
  all_goals rename_i heq
  all_goals try (intro hh; subst hh)
  all_goals first
    | exact sumSeries_no_exit _ heq
    | exact meanSeries_no_exit _ heq
    | exact groupSums_no_exit _ _ heq
    | exact idxmaxKeyed_no_exit _ heq
    | exact sumSeries_no_exit _ heq rfl
    | exact (by simpa using columnOf_error _ _ _ _ heq)

lemma applyCall_ok_tame (fv : PyValue) (argv : Option PyValue) (st : DataFrame)
    (v : PyValue) (h : (applyCall fv argv st).1 = Except.ok v) : tameValue v = true := by
  unfold applyCall at h
  split at h <;> (try split at h) <;> (try cases h) <;>
    simp_all [tameValue, valueAvoids]

lemma lookupName_tame (hasPd : Bool) (x : String) (v : PyValue)
    (h : lookupName hasPd initLocals x = some v) : tameValue v = true := by
  unfold lookupName initLocals at h
  cases hx : x == "df" <;> simp only [List.lookup, hx] at h
  · split_ifs at h <;> cases h <;> simp [tameValue, valueAvoids]
  · cases h
    simp [tameValue, valueAvoids]

lemma evalExpr_tame (hasPd : Bool) :
    ∀ (e : Expr) (st : DataFrame), tameExpr e = true →
      (evalExpr hasPd initLocals e st).2 = st ∧
      (evalExpr hasPd initLocals e st).1 ≠ Except.error PyExc.systemExit ∧
      ∀ v, (evalExpr hasPd initLocals e st).1 = Except.ok v → tameValue v = true := by
  intro e
  induction e with
  | intLit n => intro st ht; simp [evalExpr, tameValue, valueAvoids]
  | strLit s => intro st ht; simp [evalExpr, tameValue, valueAvoids]
  | name x =>
    intro st ht
    simp only [evalExpr]
    rcases h : lookupName hasPd initLocals x with _ | v <;> simp [h]
    exact lookupName_tame hasPd x v h
  | attr e a ih =>
    intro st ht
    have hte : tameExpr e = true := by
      simp [tameExpr, exprAvoids] at ht ⊢; tauto
    have hpa : ¬a = "pop" ∧ ¬a = "exit" := by
      simp [tameExpr, exprAvoids] at ht; tauto
    obtain ⟨ihs, ihe, ihv⟩ := ih st hte
    simp only [evalExpr]
    rcases h1 : evalExpr hasPd initLocals e st with ⟨r1, st1⟩
    rw [h1] at ihs ihe ihv
    replace ihs : st1 = st := ihs
    cases r1 with
    | error ex => simp_all
    | ok v =>
      have hv : tameValue v = true := ihv v rfl
      simp only [ihs]
      simp [tameValue, valueAvoids] at hv ⊢
      tauto
  | subscript e ix ihe ihix =>
    intro st ht
    have hts : tameExpr e = true ∧ tameExpr ix = true := by
      simp [tameExpr, exprAvoids] at ht ⊢; tauto
    obtain ⟨hte, htix⟩ := hts
    simp only [evalExpr]
    rcases h1 : evalExpr hasPd initLocals e st with ⟨r1, st1⟩
    obtain ⟨hs1, he1, hv1⟩ := ihe st hte
    rw [h1] at hs1 he1 hv1
    replace hs1 : st1 = st := hs1
    cases r1 with
    | error ex => simp_all
    | ok ov =>
      have hov : tameValue ov = true := hv1 ov rfl
      dsimp only
      rcases h2 : evalExpr hasPd initLocals ix st1 with ⟨r2, st2⟩
      obtain ⟨hs2, he2, hv2⟩ := ihix st1 htix
      rw [h2] at hs2 he2 hv2
      replace hs2 : st2 = st1 := hs2
      cases r2 with
      | error ex => simp_all
      | ok iv =>
        dsimp only
        refine ⟨(applySubscript_state ov iv st2).trans (hs2.trans hs1),
                applySubscript_no_exit ov iv st2,
                fun v hv => applySubscript_ok_tame ov iv st2 v hv⟩
  | call0 f ihf =>
    intro st ht
    have htf : tameExpr f = true := by
      simp [tameExpr, exprAvoids] at ht ⊢; tauto
    simp only [evalExpr]
    rcases h1 : evalExpr hasPd initLocals f st with ⟨r1, st1⟩
    obtain ⟨hs1, he1, hv1⟩ := ihf st htf
    rw [h1] at hs1 he1 hv1
    replace hs1 : st1 = st := hs1
    cases r1 with
    | error ex => simp_all
    | ok fv =>
      have hfv : tameValue fv = true := hv1 fv rfl
      have hfp : valueAvoids "pop" fv = true := by simp [tameValue] at hfv; tauto
      have hfx : valueAvoids "exit" fv = true := by simp [tameValue] at hfv; tauto
      dsimp only
      refine ⟨(applyCall_state fv none st1 hfp).trans hs1,
              applyCall_no_exit fv none st1 hfx,
              fun v hv => applyCall_ok_tame fv none st1 v hv⟩
  | call1 f a ihf iha =>
    intro st ht
    have hts : tameExpr f = true ∧ tameExpr a = true := by
      simp [tameExpr, exprAvoids] at ht ⊢; tauto
    obtain ⟨htf, hta⟩ := hts
    simp only [evalExpr]
    rcases h1 : evalExpr hasPd initLocals f st with ⟨r1, st1⟩
    obtain ⟨hs1, he1, hv1⟩ := ihf st htf
    rw [h1] at hs1 he1 hv1
    replace hs1 : st1 = st := hs1
    cases r1 with
    | error ex => simp_all
    | ok fv =>
      have hfv : tameValue fv = true := hv1 fv rfl
      have hfp : valueAvoids "pop" fv = true := by simp [tameValue] at hfv; tauto
      have hfx : valueAvoids "exit" fv = true := by simp [tameValue] at hfv; tauto
      dsimp only
      rcases h2 : evalExpr hasPd initLocals a st1 with ⟨r2, st2⟩
      obtain ⟨hs2, he2, hv2⟩ := iha st1 hta
      rw [h2] at hs2 he2 hv2
      replace hs2 : st2 = st1 := hs2
      cases r2 with
      | error ex => simp_all
      | ok av =>
        dsimp only
        refine ⟨(applyCall_state fv (some av) st2 hfp).trans (hs2.trans hs1),
                applyCall_no_exit fv (some av) st2 hfx,
                fun v hv => applyCall_ok_tame fv (some av) st2 v hv⟩

lemma execute_single_eval (hasPd : Bool) (e : Expr) (df : DataFrame) :
    execute_pandas_query hasPd (Candidate.prog e []) df =
      match evalExpr hasPd initLocals e df with
      | (Except.ok v, st) => (ExecResult.ok v, st)
      | (Except.error ex, st) =>
        if derivesException ex then (ExecResult.errorString (execErrorMsg ex), st)
        else (ExecResult.uncaught ex, st) := by
  unfold execute_pandas_query runStmts initLocals
  rcases h : evalExpr hasPd [("df", PyValue.dfRef)] e df with ⟨r, st⟩
  cases r <;> simp [runStmts, List.lookup, initLocals, h]

lemma execute_tame (hasPd : Bool) (e : Expr) (df : DataFrame)
    (ht : tameExpr e = true) :
    (execute_pandas_query hasPd (Candidate.prog e []) df).2 = df ∧
    ∀ ex, (execute_pandas_query hasPd (Candidate.prog e []) df).1 ≠ ExecResult.uncaught ex := by
  obtain ⟨hs, he, _⟩ := evalExpr_tame hasPd e df ht
  rw [execute_single_eval]
  rcases h : evalExpr hasPd initLocals e df with ⟨r, st⟩
  rw [h] at hs he
  replace hs : st = df := hs
  cases r with
  | ok v => simp_all
  | error ex =>
    have hex : ex ≠ PyExc.systemExit := by simp_all
    have hde : derivesException ex = true := by
      cases ex <;> simp_all [derivesException]
    simp_all

lemma runBatteryQF_tame :
    ∀ (b : List (String × Candidate)),
      b.all (fun p => tameCandidate p.2) = true →
      ∀ df : DataFrame, ∃ l, runBatteryQF b df = some (l, df) ∧
        List.map Prod.fst l = List.map Prod.fst b := by
  intro b
  induction b with
  | nil => intro _ df; exact ⟨[], rfl, rfl⟩
  | cons p rest ih =>
    intro hb df
    have hp : tameCandidate p.2 = true := by simp [List.all] at hb; tauto
    have hrest : rest.all (fun q => tameCandidate q.2) = true := by
      simp [List.all] at hb ⊢; tauto
    obtain ⟨e, hpe, hte⟩ : ∃ e, p.2 = Candidate.prog e [] ∧ tameExpr e = true := by
      cases hc : p.2 with
      | prog e rest2 =>
        cases rest2 with
        | nil => rw [hc] at hp; exact ⟨e, rfl, hp⟩
        | cons s ss => rw [hc] at hp; exact absurd hp Bool.false_ne_true
      | malformed => rw [hc] at hp; exact absurd hp Bool.false_ne_true
    obtain ⟨hs, hu⟩ := execute_tame true e df hte
    obtain ⟨l, hl, hm⟩ := ih hrest df
    rcases hp2 : p with ⟨n, c⟩
    have hc : c = Candidate.prog e [] := by rw [hp2] at hpe; exact hpe
    subst hc
    refine ⟨(n, (execute_pandas_query true (Candidate.prog e []) df).1) :: l, ?_, ?_⟩
    · unfold runBatteryQF
      rcases hr : execute_pandas_query true (Candidate.prog e []) df with ⟨r, d1⟩
      have hd1 : d1 = df := by rw [hr] at hs; exact hs
      subst hd1
      cases r with
      | ok v => simp [hl]
      | errorString m => simp [hl]
      | uncaught ex => exact False.elim ((hu ex) (congrArg Prod.fst hr))
    · simp [hm]

lemma quick_insights_wa_labels :
    ∀ (b : List (String × Candidate)) (df : DataFrame),
      List.map Prod.fst (quick_insights_wa b df).1 = List.map Prod.fst b := by
  intro b
  induction b with
  | nil => intro df; rfl
  | cons p rest ih =>
    intro df
    rcases p with ⟨n, c⟩
    unfold quick_insights_wa
    rcases hr : execute_pandas_query false c df with ⟨r, df1⟩
    cases r <;> simp [ih df1]

/-- Claim C1, counterexample: the evaluation environment of
execute_pandas_query is not restricted to the table binding plus
table-operation primitives.  Because exec injects the Python builtins
into the globals dict, "open" and "__import__" resolve from inside the
candidate (in both source files), neither is in the allow-list the
specification describes, and evaluating open("secrets.txt"),
pd.read_csv("allops.csv") or __import__("os") reaches the host file
system and import machinery. -/
theorem c1_sandbox_env_counterexample :
    lookupName true initLocals "open" = some (PyValue.builtinFn "open") ∧
    lookupName true initLocals "__import__" = some (PyValue.builtinFn "__import__") ∧
    lookupName false initLocals "open" = some (PyValue.builtinFn "open") ∧
    specAllowedPrimitives.contains "open" = false ∧
    specAllowedPrimitives.contains "__import__" = false ∧
    (evalExpr true initLocals
      (Expr.call1 (Expr.name "open") (Expr.strLit "secrets.txt")) sampleDf).1
      = Except.ok (PyValue.hostObj "open file handle") ∧
    (evalExpr true initLocals
      (Expr.call1 (Expr.attr (Expr.name "pd") "read_csv") (Expr.strLit "allops.csv")) sampleDf).1
      = Except.ok (PyValue.hostObj "csv file read") ∧
    (evalExpr false initLocals
      (Expr.call1 (Expr.name "open") (Expr.strLit "secrets.txt")) sampleDf).1
      = Except.ok (PyValue.hostObj "open file handle") ∧
    (evalExpr true initLocals
      (Expr.call1 (Expr.name "__import__") (Expr.strLit "os")) sampleDf).1
      = Except.ok (PyValue.module "os") := by
  refine ⟨rfl, rfl, rfl, by decide, by decide, rfl, rfl, rfl, rfl⟩

/-- Claim C1, amended: the environment handed to the candidate contains
the table binding "df" (both files), the pandas module binding "pd"
(queryfinal.py only), and — because exec inserts __builtins__ into a
globals dict that lacks it — the Python builtins, including open and
__import__; bindings to the host file system and import machinery are
therefore reachable from the evaluated expression. -/
theorem c1_sandbox_env_amended :
    lookupName true initLocals "df" = some PyValue.dfRef ∧
    lookupName false initLocals "df" = some PyValue.dfRef ∧
    lookupName true initLocals "pd" = some (PyValue.module "pandas") ∧
    lookupName false initLocals "pd" = none ∧
    (pythonBuiltinNames.all fun n =>
      (lookupName true initLocals n == some (PyValue.builtinFn n)) &&
      (lookupName false initLocals n == some (PyValue.builtinFn n))) = true ∧
    pythonBuiltinNames.contains "open" = true ∧
    pythonBuiltinNames.contains "__import__" = true := by
  refine ⟨rfl, rfl, rfl, rfl, by decide, by decide, by decide⟩

/-- Claim C2, amended: for every candidate and table,
execute_pandas_query returns either the raw result value or the
"Error executing query: ..." string — except that an exception not
derived from Exception (SystemExit is the only such exception in the
model) escapes the "except Exception" handler and propagates to the
caller. -/
theorem c2_totality_amended (hasPd : Bool) (c : Candidate) (df : DataFrame) :
    (∃ v, (execute_pandas_query hasPd c df).1 = ExecResult.ok v) ∨
    (∃ m, (execute_pandas_query hasPd c df).1 = ExecResult.errorString m) ∨
    (execute_pandas_query hasPd c df).1 = ExecResult.uncaught PyExc.systemExit := by
  cases c with
  | malformed => exact Or.inr (Or.inl ⟨_, rfl⟩)
  | prog e rest =>
    unfold execute_pandas_query
    dsimp only
    rcases h : runStmts hasPd (Stmt.assign "result" e :: rest) initLocals df with ⟨r, st⟩
    cases r with
    | ok locals =>
      dsimp only
      cases hl : List.lookup "result" locals <;> simp [hl]
    | error ex =>
      dsimp only
      cases hd : derivesException ex
      · have hx : ex = PyExc.systemExit := by
          cases ex <;> simp_all [derivesException]
        subst hx
        simp [hd]
      · simp [hd]

/-- Claim C2, counterexample: the sandbox is not total.  For the single
expression __import__("sys").exit(), evaluation raises SystemExit, which
does not derive from Exception, so execute_pandas_query raises to its
caller instead of returning an Error result. -/
theorem c2_totality_counterexample :
    (execute_pandas_query true sysExitCandidate sampleDf).1
      = ExecResult.uncaught PyExc.systemExit ∧
    derivesException PyExc.systemExit = false := by
  exact ⟨rfl, rfl⟩

/-- Claim C3, amended: a successful response is passed through only up
to whitespace stripping — generate_pandas_query returns the stripped
response text when it is non-empty (and, in queryfinal.py, only when it
does not contain the substring "Error"); the raw response is never
forwarded verbatim when it has surrounding whitespace. -/
theorem c3_verbatim_amended (s : String) (h : ¬ pyStrip s = "") :
    (containsErrorSub (pyStrip s) = false →
      generate_pandas_query_qf (TranslationOutcome.success s) = pyStrip s) ∧
    generate_pandas_query_wa (TranslationOutcome.success s) = pyStrip s := by
  constructor
  · intro hc
    simp [generate_pandas_query_qf, h, hc]
  · simp [generate_pandas_query_wa, h]

/-- Claim C3, witness: the amended theorem applied to the concrete
response " df.head() ", whose stripped text is non-empty and free of
"Error". -/
theorem c3_verbatim_witness :
    ¬ (pyStrip " df.head() ") = "" ∧
    containsErrorSub (pyStrip " df.head() ") = false ∧
    generate_pandas_query_qf (TranslationOutcome.success " df.head() ") = "df.head()" ∧
    generate_pandas_query_wa (TranslationOutcome.success " df.head() ") = "df.head()" := by
  refine ⟨by decide, by decide, ?_, ?_⟩
  · exact ((c3_verbatim_amended " df.head() " (by decide)).1 (by decide)).trans (by decide)
  · exact ((c3_verbatim_amended " df.head() " (by decide)).2).trans (by decide)

/-- Claim C3, counterexample: pass-through is not verbatim.  The
non-empty response "Total Error" is replaced by "df.head()" in
queryfinal.py (a semantic substring filter at the translation layer),
and the non-empty response " df.head() " is stripped by webapp.py, so
the expression handed to the sandbox differs from the service response
in both files. -/
theorem c3_verbatim_counterexample :
    generate_pandas_query_qf (TranslationOutcome.success "Total Error") = "df.head()" ∧
    ¬ "Total Error" = "" ∧
    ¬ generate_pandas_query_qf (TranslationOutcome.success "Total Error") = "Total Error" ∧
    generate_pandas_query_wa (TranslationOutcome.success " df.head() ") = "df.head()" ∧
    ¬ generate_pandas_query_wa (TranslationOutcome.success " df.head() ") = " df.head() " := by
  refine ⟨by decide, by decide, by decide, by decide, by decide⟩

/-- Claim C4: whenever translation fails (service exception, or a
response whose stripped text is empty), the run proceeds and the
expression handed to execute_pandas_query equals the fixed fallback
"df.head()"; the translation error is not propagated as a fatal
failure in either source file. -/
theorem c4_fallback_theorem (q : String) (o : TranslationOutcome)
    (hq : ¬ q = "") (hf : translationFailed o = true) :
    (run_query_qf q o).outcome = RunOutcome.completed "df.head()" ∧
    (run_query_qf q o).sandboxInvoked = true ∧
    (run_query_wa q o).outcome = RunOutcome.completed "df.head()" ∧
    (run_query_wa q o).sandboxInvoked = true := by
  have hgq : generate_pandas_query_qf o = "df.head()" := by
    cases o with
    | failure => rfl
    | success s =>
      simp [translationFailed] at hf
      simp [generate_pandas_query_qf, hf]
  have hgw : generate_pandas_query_wa o = "df.head()" := by
    cases o with
    | failure => rfl
    | success s =>
      simp [translationFailed] at hf
      simp [generate_pandas_query_wa, hf]
  simp [run_query_qf, run_query_wa, hq, hgq, hgw]

/-- Claim C4, witness: the theorem applied to the non-empty question
"total sales" with a failing translation call. -/
theorem c4_fallback_witness :
    ¬ "total sales" = "" ∧
    translationFailed TranslationOutcome.failure = true ∧
    (run_query_qf "total sales" TranslationOutcome.failure).outcome
      = RunOutcome.completed "df.head()" ∧
    (run_query_wa "total sales" TranslationOutcome.failure).outcome
      = RunOutcome.completed "df.head()" := by
  have h := c4_fallback_theorem "total sales" TranslationOutcome.failure
    (by decide) (by decide)
  exact ⟨by decide, by decide, h.1, h.2.2.1⟩

/-- Claim C5, amended: only the exactly-empty question is rejected
before any call is made (queryfinal.py shows a warning box, webapp.py
simply renders nothing; neither raises an EmptyQuestionError); a
whitespace-only question such as " " is truthy in Python and proceeds to
invoke the translation client and then the sandbox in both files. -/
theorem c5_empty_question_amended (o : TranslationOutcome) :
    run_query_qf "" o =
      { translationInvoked := false, sandboxInvoked := false,
        outcome := RunOutcome.rejectedEmptyQuestion } ∧
    run_query_wa "" o =
      { translationInvoked := false, sandboxInvoked := false,
        outcome := RunOutcome.rejectedEmptyQuestion } ∧
    (run_query_qf " " o).translationInvoked = true ∧
    (run_query_wa " " o).translationInvoked = true := by
  exact ⟨rfl, rfl, rfl, rfl⟩

/-- Claim C5, counterexample: the whitespace-only question " " (empty
after stripping, but a non-empty string) is not rejected: run_query
invokes the translation client and the sandbox for it in both source
files. -/
theorem c5_empty_question_counterexample :
    pyStrip " " = "" ∧ ¬ " " = "" ∧
    (run_query_qf " " TranslationOutcome.failure).translationInvoked = true ∧
    (run_query_qf " " TranslationOutcome.failure).sandboxInvoked = true ∧
    (run_query_wa " " TranslationOutcome.failure).translationInvoked = true := by
  refine ⟨by decide, by decide, rfl, rfl, rfl⟩

/-- Claim C6, amended: the table is passed by reference into the
evaluation environment; any single-expression candidate that contains no
.pop and no .exit attribute access leaves the table unchanged (in
particular the whole insights battery and the fallback df.head()), but
in-place mutators reachable from the environment can modify it. -/
theorem c6_readonly_amended (hasPd : Bool) (e : Expr) (df : DataFrame)
    (ht : tameExpr e = true) :
    (execute_pandas_query hasPd (Candidate.prog e []) df).2 = df :=
  (execute_tame hasPd e df ht).1

/-- Claim C6, witness: the amended theorem applied to the fallback
expression df.head() on the sample table. -/
theorem c6_readonly_witness :
    tameExpr (Expr.call0 (Expr.attr (Expr.name "df") "head")) = true ∧
    (execute_pandas_query true dfHeadCandidate sampleDf).2 = sampleDf := by
  refine ⟨by decide, ?_⟩
  exact c6_readonly_amended true (Expr.call0 (Expr.attr (Expr.name "df") "head"))
    sampleDf (by decide)

/-- Claim C6, counterexample: expression evaluation is not read-only
with respect to the table.  The single expression df.pop("Amount")
evaluates successfully and removes the Amount column from the live
table in place. -/
theorem c6_readonly_counterexample :
    (execute_pandas_query true popCandidate sampleDf).1
      = ExecResult.ok (PyValue.series [PyScalar.num (intRat 100), PyScalar.num (intRat 200), PyScalar.num (intRat 300)]) ∧
    ¬ (execute_pandas_query true popCandidate sampleDf).2 = sampleDf ∧
    (execute_pandas_query true popCandidate sampleDf).2 =
      ⟨["Product name", "Account (Opportunity) (Opportunity)"],
       [[PyScalar.str "A", PyScalar.str "X"],
        [PyScalar.str "B", PyScalar.str "Y"],
        [PyScalar.str "A", PyScalar.str "X"]]⟩ := by
  refine ⟨by decide, by decide, by decide⟩

/-- Claim C7, amended: execute_pandas_query returns the raw, untagged
result of the evaluation — a number stays a raw number, a row subset a
raw frame, and a function object is returned as-is; only an exception
during evaluation produces the error string
"Error executing query: ...".  No Scalar/Table tagging and no
"unsupported result type" classification exists in the code. -/
theorem c7_classification_amended :
    (execute_pandas_query true (Candidate.prog qfSumExpr []) sampleDf).1
      = ExecResult.ok (PyValue.scalar (PyScalar.num (intRat 600))) ∧
    (execute_pandas_query true dfHeadCandidate sampleDf).1
      = ExecResult.ok (PyValue.frame sampleDf) ∧
    (execute_pandas_query true (Candidate.prog (Expr.name "len") []) sampleDf).1
      = ExecResult.ok (PyValue.builtinFn "len") ∧
    (execute_pandas_query true (Candidate.prog (Expr.subscript (Expr.name "df")
      (Expr.strLit "Revenue")) []) sampleDf).1
      = ExecResult.errorString (execErrorMsg (PyExc.keyError "Revenue")) := by
  refine ⟨by decide, by decide, by decide, by decide⟩

/-- Claim C7, counterexample: for the candidate "len" the raw builtin
function object is returned to the caller; it is not classified as
Error("unsupported result type") as the claim requires. -/
theorem c7_classification_counterexample :
    (execute_pandas_query true (Candidate.prog (Expr.name "len") []) sampleDf).1
      = ExecResult.ok (PyValue.builtinFn "len") ∧
    ¬ (execute_pandas_query true (Candidate.prog (Expr.name "len") []) sampleDf).1
      = ExecResult.errorString "unsupported result type" := by
  exact ⟨rfl, by decide⟩

/-- Claim C8, amended: the synthesized program "result = <candidate>" is
compiled by exec in statement mode, so a single-expression candidate
reduces to one value, but a candidate containing further statements
(such as "0\nresult = 42") has those statements executed — the trailing
assignment takes effect — rather than being rejected. -/
theorem c8_single_expression_amended :
    (execute_pandas_query true (Candidate.prog (Expr.intLit 0) []) sampleDf).1
      = ExecResult.ok (PyValue.scalar (PyScalar.num (intRat 0))) ∧
    (execute_pandas_query true multiStmtCandidate sampleDf).1
      = ExecResult.ok (PyValue.scalar (PyScalar.num (intRat 42))) := by
  exact ⟨by decide, by decide⟩

/-- Claim C8, counterexample: the multi-statement candidate
"0\nresult = 42" is executed, not rejected: execute_pandas_query
returns 42 (the value set by the second statement), not a syntax-error
result, and not the value of the first expression. -/
theorem c8_single_expression_counterexample :
    (execute_pandas_query true multiStmtCandidate sampleDf).1
      = ExecResult.ok (PyValue.scalar (PyScalar.num (intRat 42))) ∧
    ¬ (execute_pandas_query true multiStmtCandidate sampleDf).1
      = ExecResult.errorString (execErrorMsg PyExc.parseError) ∧
    ¬ (execute_pandas_query true multiStmtCandidate sampleDf).1
      = (execute_pandas_query true (Candidate.prog (Expr.intLit 0) []) sampleDf).1 := by
  refine ⟨by decide, by decide, by decide⟩

/-- Claim C9, amended: for every table, each insights run returns
exactly one entry per battery item in battery order — the queryfinal.py
run with labels {Total Sales, Average Order Value, Number of
Transactions, Top Product, Top Customer} (the row-count label is
"Number of Transactions", not "Transaction Count"), and the webapp.py
run with its own labels {Total Extended Amount, Average Product
Quantity, Number of Transactions, Top Product by Sales, Average Order
Value}; on the table with Amount = [100, 200, 300] the queryfinal Total
Sales entry yields the raw scalar 600.  The two batteries are different
fixed sets (see the counterexample). -/
theorem c9_insights_amended (df : DataFrame) :
    (∃ l, runBatteryQF queryfinalBattery df = some (l, df) ∧
      List.map Prod.fst l =
        ["Total Sales", "Average Order Value", "Number of Transactions",
         "Top Product", "Top Customer"] ∧ l.length = 5) ∧
    (List.map Prod.fst (quick_insights_wa webappBattery df).1 =
      ["Total Extended Amount", "Average Product Quantity", "Number of Transactions",
       "Top Product by Sales", "Average Order Value"] ∧
     (quick_insights_wa webappBattery df).1.length = 5) ∧
    runBatteryQF queryfinalBattery sampleDf =
      some ([("Total Sales", ExecResult.ok (PyValue.scalar (PyScalar.num (intRat 600)))),
             ("Average Order Value", ExecResult.ok (PyValue.scalar (PyScalar.num (intRat 200)))),
             ("Number of Transactions", ExecResult.ok (PyValue.scalar (PyScalar.num (intRat 3)))),
             ("Top Product", ExecResult.ok (PyValue.scalar (PyScalar.str "A"))),
             ("Top Customer", ExecResult.ok (PyValue.scalar (PyScalar.str "X")))],
            sampleDf) := by
  refine ⟨?_, ⟨?_, ?_⟩, ?_⟩
  · obtain ⟨l, hl, hm⟩ := runBatteryQF_tame queryfinalBattery (by decide) df
    refine ⟨l, hl, ?_, ?_⟩
    · rw [hm]; rfl
    · have := congrArg List.length hm
      simpa using this
  · rw [quick_insights_wa_labels]; rfl
  · have := congrArg List.length (quick_insights_wa_labels webappBattery df)
    simpa using this
  · decide

/-- Claim C9, counterexample: the battery content is not the single
build-time set the claim states.  The webapp.py battery is {Total
Extended Amount, Average Product Quantity, Number of Transactions, Top
Product by Sales, Average Order Value} — which contains labels absent
from the claimed set and lacks Top Customer — and neither battery uses
the claimed label "Transaction Count". -/
theorem c9_insights_counterexample :
    List.map Prod.fst webappBattery =
      ["Total Extended Amount", "Average Product Quantity", "Number of Transactions",
       "Top Product by Sales", "Average Order Value"] ∧
    specBatteryLabels.contains "Average Product Quantity" = false ∧
    specBatteryLabels.contains "Total Extended Amount" = false ∧
    (List.map Prod.fst webappBattery).contains "Top Customer" = false ∧
    (List.map Prod.fst queryfinalBattery).contains "Transaction Count" = false ∧
    specBatteryLabels.contains "Transaction Count" = true := by
  refine ⟨by decide, by decide, by decide, by decide, by decide, by decide⟩

/-- Claim C10: for every translation outcome, generate_pandas_query
returns a non-empty string in both files — either the stripped response
or the literal "df.head()" — queryfinal.py never returns a string
containing the substring "Error", and consequently any expression the
run hands to the sandbox is non-empty. -/
theorem c10_nonempty_theorem (o : TranslationOutcome) :
    ¬ generate_pandas_query_qf o = "" ∧
    ¬ generate_pandas_query_wa o = "" ∧
    containsErrorSub (generate_pandas_query_qf o) = false ∧
    (generate_pandas_query_qf o = "df.head()" ∨
      ∃ s, o = TranslationOutcome.success s ∧ generate_pandas_query_qf o = pyStrip s) ∧
    (generate_pandas_query_wa o = "df.head()" ∨
      ∃ s, o = TranslationOutcome.success s ∧ generate_pandas_query_wa o = pyStrip s) ∧
    (∀ q ex, ((run_query_qf q o).outcome = RunOutcome.completed ex ∨
        (run_query_wa q o).outcome = RunOutcome.completed ex) → ¬ ex = "") := by
  have main : ¬ generate_pandas_query_qf o = "" ∧
      ¬ generate_pandas_query_wa o = "" ∧
      containsErrorSub (generate_pandas_query_qf o) = false ∧
      (generate_pandas_query_qf o = "df.head()" ∨
        ∃ s, o = TranslationOutcome.success s ∧ generate_pandas_query_qf o = pyStrip s) ∧
      (generate_pandas_query_wa o = "df.head()" ∨
        ∃ s, o = TranslationOutcome.success s ∧ generate_pandas_query_wa o = pyStrip s) := by
    cases o with
    | failure => exact ⟨by decide, by decide, by decide, Or.inl rfl, Or.inl rfl⟩
    | success s =>
      by_cases h1 : pyStrip s = ""
      · have hq : generate_pandas_query_qf (TranslationOutcome.success s) = "df.head()" := by
          simp [generate_pandas_query_qf, h1]
        have hw : generate_pandas_query_wa (TranslationOutcome.success s) = "df.head()" := by
          simp [generate_pandas_query_wa, h1]
        rw [hq, hw]
        exact ⟨by decide, by decide, by decide, Or.inl rfl, Or.inl rfl⟩
      · have hw : generate_pandas_query_wa (TranslationOutcome.success s) = pyStrip s := by
          simp [generate_pandas_query_wa, h1]
        by_cases h2 : containsErrorSub (pyStrip s) = true
        · have hq : generate_pandas_query_qf (TranslationOutcome.success s) = "df.head()" := by
            simp [generate_pandas_query_qf, h2]
          rw [hq, hw]
          exact ⟨by decide, h1, by decide, Or.inl rfl, Or.inr ⟨s, rfl, rfl⟩⟩
        · have h2f : containsErrorSub (pyStrip s) = false := by
            cases hcc : containsErrorSub (pyStrip s)
            · rfl
            · exact absurd hcc h2
          have hq : generate_pandas_query_qf (TranslationOutcome.success s) = pyStrip s := by
            simp [generate_pandas_query_qf, h1, h2f]
          rw [hq, hw]
          exact ⟨h1, h1, h2f, Or.inr ⟨s, rfl, rfl⟩, Or.inr ⟨s, rfl, rfl⟩⟩
  refine ⟨main.1, main.2.1, main.2.2.1, main.2.2.2.1, main.2.2.2.2, ?_⟩
  intro q ex h
  by_cases hq : q = ""
  · rcases h with h | h <;> simp [run_query_qf, run_query_wa, hq] at h
  · rcases h with h | h
    · have : generate_pandas_query_qf o = ex := by
        simp [run_query_qf, hq] at h
        exact h
      exact this ▸ main.1
    · have : generate_pandas_query_wa o = ex := by
        simp [run_query_wa, hq] at h
        exact h
      exact this ▸ main.2.1

/-- Claim C10, witness: the theorem applied to a failing translation
outcome and the question "total sales", whose run hands the non-empty
fallback to the sandbox. -/
theorem c10_nonempty_witness :
    (run_query_qf "total sales" TranslationOutcome.failure).outcome
      = RunOutcome.completed "df.head()" ∧
    ¬ "df.head()" = "" := by
  refine ⟨by decide, ?_⟩
  exact (c10_nonempty_theorem TranslationOutcome.failure).2.2.2.2.2
    "total sales" "df.head()" (Or.inl (by decide))
